import Mathlib

/-
Verification of the natural-language specification of
station-10/adobe-usage-import-public (src/adobe_usage.py) against a shallow
embedding of its code in Lean 4.

Modelling conventions, used throughout:
- A JSON record (a Python dict loaded from the intermediate JSON file) is an
  association list of string keys to JSON-ish values (`JVal`): a string, a
  non-negative number, or null.  `Record.get?` is `dict.__getitem__` /
  `dict.get` lookup; `Record.set` is item assignment (replace in place or
  append, as Python dicts preserve insertion order).
- Calendar dates are represented by their day number (days since an arbitrary
  epoch) and datetimes by seconds since that epoch's midnight; Python's
  `datetime` arithmetic (`timedelta(days=1, seconds=-1)` etc.) becomes plain
  arithmetic with 86400 seconds per day.  All timestamps in this program are
  non-negative, so Nat suffices, and Python's floor division agrees with Nat
  division.
- ISO-8601 timestamp parsing (`datetime.fromisoformat`) is abstracted: a
  parsed creation timestamp is carried as a `JVal.num` holding the epoch
  seconds; any other shape fails, as the Python parse would.
- Python exceptions become the `PyErr` error kind of an `Except PyErr`
  result; an uncaught exception aborts the operation without persisting
  anything, which matches the scripts' read-modify-write-a-whole-file
  structure.
-/

/-- The Python exception kinds the modelled code can raise.  `requestFailure`
and `existingDataError` are the script's own exception classes; the others are
builtin Python exceptions.  `requestException` stands for an exception raised
by the `requests` library itself (timeout, connection error) before a response
exists; `ioError` for an OSError from file handling (gzip). -/
inductive PyErr where
  | keyError
  | indexError
  | valueError
  | nameError
  | attributeError
  | typeError
  | requestFailure
  | existingDataError
  | requestException
  | ioError
deriving DecidableEq, Repr

/-- A JSON value as this program uses them: a string, a non-negative number
(all numbers in play are event-type codes or epoch-second timestamps), or
null (Python `None`). -/
inductive JVal where
  | str (s : String)
  | num (n : Nat)
  | null
deriving DecidableEq, Repr

/-- Python `str(v)`, as an f-string renders a value (`None` prints as the
four characters `None`). -/
def JVal.pyStr : JVal → String
  | .str s => s
  | .num n => toString n
  | .null => "None"

/-- `d[k] = v` on an association list: replace the existing binding in place,
else append (Python dicts keep insertion order). -/
def updAssoc {α : Type} : List (String × α) → String → α → List (String × α)
  | [], k, v => [(k, v)]
  | (k₁, v₁) :: rest, k, v =>
    if k₁ = k then (k, v) :: rest else (k₁, v₁) :: updAssoc rest k v

/-- `d.pop(k, None)` on an association list: drop the binding for `k`. -/
def popAssoc {α : Type} : List (String × α) → String → List (String × α)
  | [], _ => []
  | (k₁, v₁) :: rest, k => if k₁ = k then rest else (k₁, v₁) :: popAssoc rest k

/-- Dictionary lookup on an association list. -/
def lookupAssoc {α : Type} : List (String × α) → String → Option α
  | [], _ => none
  | (k₁, v₁) :: rest, k => if k₁ = k then some v₁ else lookupAssoc rest k

/-- One audit record: a JSON object. -/
structure Record where
  fields : List (String × JVal)
deriving DecidableEq, Repr

/-- `log.get(k)`: `some v` when the key is present, `none` when absent. -/
def Record.get? (r : Record) (k : String) : Option JVal :=
  lookupAssoc r.fields k

/-- `log.get(k, d)`: the value when the key is present, else the default. -/
def Record.getD (r : Record) (k : String) (d : JVal) : JVal :=
  (r.get? k).getD d

/-- `log[k] = v`. -/
def Record.set (r : Record) (k : String) (v : JVal) : Record :=
  ⟨updAssoc r.fields k v⟩

/-- `AdobeAPI.inclusive_date_range` (src/adobe_usage.py:103).  Dates are day
numbers; the result is the pair of datetimes (epoch seconds): the start of
`startDay`, and the end date moved by `timedelta(days=1, seconds=-1)`, i.e.
one second before the start of the day after `endDay`.  `start > end` raises
ValueError. -/
def inclusive_date_range (startDay endDay : Nat) : Except PyErr (Nat × Nat) :=
  if startDay > endDay then .error .valueError
  else .ok (startDay * 86400, endDay * 86400 + 86400 - 1)

/-- The chunking loop of `AdobeAPI.get_usage_audit_logs`
(src/adobe_usage.py:159-215), reduced to the sub-windows of days it fetches.
`startDT` and `endDT` are the loop's `start_date_dt` and `end_date_dt` as
epoch seconds.  Each iteration:
`current_end_date = min(current_start_date + timedelta(days=89), end_date_dt)`;
both bounds are then re-parsed through `strftime("%Y-%m-%d")` (truncation to
the day, the `/ 86400`) and `inclusive_date_range`, which makes the fetched
window `[sDay 00:00:00, eDay 23:59:59]`; the next `start_date_dt` is
`current_end_date + timedelta(days=1)` = `eDay * 86400 + 86399 + 86400`.
The fuel argument only bounds the recursion; each iteration advances
`startDT` by at least a day, so `endDay + 1` iterations always suffice. -/
def usageWindowsGo : Nat → Nat → Nat → List (Nat × Nat)
  | 0, _, _ => []
  | fuel + 1, startDT, endDT =>
    if startDT ≤ endDT then
      let currentEndDT := Nat.min (startDT + 89 * 86400) endDT
      let sDay := startDT / 86400
      let eDay := currentEndDT / 86400
      (sDay, eDay) :: usageWindowsGo fuel (eDay * 86400 + 86399 + 86400) endDT
    else []

/-- The day-windows `AdobeAPI.get_usage_audit_logs` requests for the overall
inclusive range `[startDay, endDay]`. -/
def get_usage_audit_log_windows (startDay endDay : Nat) : List (Nat × Nat) :=
  usageWindowsGo (endDay + 1) (startDay * 86400) (endDay * 86400)

/-- The Python loop `for item in data: ... updated.append(f(item))` over a
fallible per-item body: the first exception aborts the whole pass, and
nothing is persisted. -/
def mapExcept {α β : Type} (f : α → Except PyErr β) : List α → Except PyErr (List β)
  | [] => .ok []
  | x :: xs =>
    match f x with
    | .error e => .error e
    | .ok y =>
      match mapExcept f xs with
      | .error e => .error e
      | .ok ys => .ok (y :: ys)

/-- The `event_types_dict` lookup table of `AdobeAPI.update_event_types`
(src/adobe_usage.py:230-266). -/
def event_types_dict : List (Nat × String) :=
  [(0, "No Category"), (1, "Login failed"), (2, "Login successful"),
   (3, "Admin Action"), (4, "Security setting change"), (5, "Report viewed"),
   (6, "Report downloaded"), (7, "Alert sent"), (8, "User Action"),
   (9, "Tool viewed"), (10, "Adobe Action"), (11, "Password Recovery"),
   (12, "BookMarks"), (13, "Dashboards"), (14, "Alerts"),
   (15, "Calendar Events"), (16, "Targets"), (17, "Report Settings"),
   (18, "Scheduled Reports"), (19, "Exclude By IP"), (20, "Name Pages"),
   (21, "Classifications"), (22, "Data Sources"), (23, "Workspace Project"),
   (24, "Segment"), (25, "Calculated Metric"), (26, "Date Range"),
   (27, "Virtual Report Suite"), (28, "Contribution Analysis"),
   (30, "Excel Data Block Request"), (31, "Excel Login Failure"),
   (32, "Excel Login Success"), (41, "Mobile Login Failure"),
   (42, "Mobile Login Success"), (61, "Api Method")]

/-- `event_types_dict[code]` with the `in` membership test. -/
def lookupEventType (n : Nat) : Option String :=
  (event_types_dict.find? (fun p => p.1 = n)).map (fun p => p.2)

/-- The loop body of `AdobeAPI.update_event_types` (src/adobe_usage.py:271-293)
for one record.  `event.get("eventType")` yields None for an absent key and for
a null value, both flagged with the sentinel label; a string code goes through
`int(...)`, whose ValueError is caught and leaves the record unchanged (the
codes in play are non-negative, so `String.toNat?` is that parse); a known
code maps through the table, an unknown one to a label embedding the code.
No branch raises, so the whole pass is total. -/
def update_event_type_record (r : Record) : Record :=
  match r.get? "eventType" with
  | none => r.set "eventType" (.str "Unknown Event Type")
  | some .null => r.set "eventType" (.str "Unknown Event Type")
  | some (.str s) =>
    match s.toNat? with
    | none => r
    | some n =>
      match lookupEventType n with
      | some label => r.set "eventType" (.str label)
      | none => r.set "eventType" (.str ("Unknown Event Type: " ++ toString n))
  | some (.num n) =>
    match lookupEventType n with
    | some label => r.set "eventType" (.str label)
    | none => r.set "eventType" (.str ("Unknown Event Type: " ++ toString n))

/-- `AdobeAPI.update_event_types` (src/adobe_usage.py:222-298) on the record
list held by the JSON file. -/
def update_event_types (logs : List Record) : List Record :=
  logs.map update_event_type_record

/-- Python `\s` on the ASCII characters this data uses. -/
def pyIsSpace (c : Char) : Bool :=
  c = ' ' || c = '\t' || c = '\n' || c = '\r' || c = '\x0b' || c = '\x0c'

/-- Python `str.strip()`: whitespace removed from both ends. -/
def pyStrip (s : String) : String :=
  ⟨((s.data.dropWhile pyIsSpace).reverse.dropWhile pyIsSpace).reverse⟩

/-- Match a literal at the head of the input; on success return the rest. -/
def dropLit : List Char → List Char → Option (List Char)
  | [], l => some l
  | _ :: _, [] => none
  | p :: ps, c :: cs => if c = p then dropLit ps cs else none

/-- The optional tail `(?:\sOwner=(?P<owner>.*))?` of the component pattern of
`AdobeAPI.add_component_info` (src/adobe_usage.py:308), tried at the position
after the id: a whitespace, the literal `Owner=`, then `.*` greedily takes the
rest of the line (`.` does not cross a newline).  `none` means the optional
group matched empty, leaving the owner group unset. -/
def ownerGroup (l : List Char) : Option (List Char) :=
  match l with
  | [] => none
  | c :: rest =>
    if pyIsSpace c then
      match dropLit ['O', 'w', 'n', 'e', 'r', '='] rest with
      | some tail => some (tail.takeWhile (fun ch => ch ≠ '\n'))
      | none => none
    else none

/-- The pattern tail `\sId=(?P<id>\S+)(?:\sOwner=...)?` tried at one position:
a whitespace, the literal `Id=`, a non-empty greedy run of non-whitespace as
the id, then the optional owner group.  The group after `\S+` is nullable, so
the greedy id run never backtracks. -/
def idAndOwner (l : List Char) : Option (List Char × Option (List Char)) :=
  match l with
  | [] => none
  | c :: rest =>
    if pyIsSpace c then
      match dropLit ['I', 'd', '='] rest with
      | some r₂ =>
        let idPart := r₂.takeWhile (fun ch => !pyIsSpace ch)
        if idPart.isEmpty then none
        else some (idPart, ownerGroup (r₂.drop idPart.length))
      | none => none
    else none

/-- The lazy name group `(?P<name>.*?)` of the component pattern: at each
position first try the rest of the pattern, else swallow one more character
into the name (`.` stops at a newline). -/
def lazyName : List Char → List Char → Option (List Char × List Char × Option (List Char))
  | acc, [] =>
    match idAndOwner [] with
    | some (idp, ow) => some (acc, idp, ow)
    | none => none
  | acc, c :: rest =>
    match idAndOwner (c :: rest) with
    | some (idp, ow) => some (acc, idp, ow)
    | none => if c = '\n' then none else lazyName (acc ++ [c]) rest

/-- `re.compile(r"Name=(?P<name>.*?)\sId=(?P<id>\S+)(?:\sOwner=(?P<owner>.*))?")
.search(text)`: the leftmost start position at which the whole pattern
matches, with the lazy/greedy semantics above.  Result: the name, id and
optional owner capture groups. -/
def regexSearchComp : List Char → Option (List Char × List Char × Option (List Char))
  | [] => none
  | c :: rest =>
    match dropLit ['N', 'a', 'm', 'e', '='] (c :: rest) with
    | some r =>
      match lazyName [] r with
      | some res => some res
      | none => regexSearchComp rest
    | none => regexSearchComp rest

/-- The loop body of `AdobeAPI.add_component_info` (src/adobe_usage.py:318-331)
for one record.  `item.get("eventDescription", "")` defaults an absent key to
the empty string; `re.search` on a non-string value (a null) raises TypeError.
On a match the three component fields are set, the owner falling back to
"N/A" when its group is unset or empty (Python truthiness); without a match
the record is appended unmodified. -/
def add_component_info_record (item : Record) : Except PyErr Record :=
  match item.getD "eventDescription" (.str "") with
  | .str desc =>
    match regexSearchComp desc.data with
    | some (namePart, idPart, owPart) =>
      let item₁ := item.set "componentName" (.str (pyStrip ⟨namePart⟩))
      let item₂ := item₁.set "componentId" (.str (pyStrip ⟨idPart⟩))
      let ownerVal :=
        match owPart with
        | some ow => if ow.isEmpty then "N/A" else pyStrip ⟨ow⟩
        | none => "N/A"
      .ok (item₂.set "componentOwner" (.str ownerVal))
    | none => .ok item
  | _ => .error .typeError

/-- `AdobeAPI.add_component_info` (src/adobe_usage.py:300-336) on the record
list held by the JSON file. -/
def add_component_info (logs : List Record) : Except PyErr (List Record) :=
  mapExcept add_component_info_record logs

/-- The `event_name_dict` table of `AdobeAPI.add_adobe_events`
(src/adobe_usage.py:345-378), in insertion order (the loop breaks at the
first phrase found). -/
def event_name_dict : List (String × String) :=
  [("event1", "project created"), ("event2", "project viewed"),
   ("event3", "project updated"), ("event4", "project deleted"),
   ("event5", "sharing project"), ("event6", "segment created"),
   ("event7", "segment updated"), ("event8", "segment deleted"),
   ("event9", "sharing segment"), ("event10", "calculated metric created"),
   ("event11", "calculated metric updated"),
   ("event12", "calculated metric deleted"),
   ("event13", "sharing calculated metric"), ("event14", "date range created"),
   ("event15", "date range updated"), ("event16", "date range deleted"),
   ("event17", "sharing date range"),
   ("event18", "virtual report suite created"),
   ("event19", "virtual report suite updated"),
   ("event20", "virtual report suite deleted"), ("event21", "alert created"),
   ("event22", "alert updated"), ("event23", "alert deleted"),
   ("event24", "sharing alert"), ("event25", "delivered alert"),
   ("event26", "classification"), ("event27", "viewed permissions"),
   ("event28", "viewed company"), ("event29", "viewed logs"),
   ("event30", "successful login"), ("event31", "login failed"),
   ("event32", "api operation")]

/-- Whether the first list matches at the head of the second. -/
def startsWith : List Char → List Char → Bool
  | [], _ => true
  | _ :: _, [] => false
  | p :: ps, c :: cs => p = c && startsWith ps cs

/-- Python `needle in haystack` on strings: substring containment. -/
def containsSub (needle : List Char) : List Char → Bool
  | [] => needle.isEmpty
  | c :: rest => startsWith needle (c :: rest) || containsSub needle rest

/-- The loop body of `AdobeAPI.add_adobe_events` (src/adobe_usage.py:385-394)
for one record.  The default `entry["event"] = ""` is assigned first; then
`entry["eventDescription"]` is read with item access — an absent key raises
KeyError, a null value makes `.lower()` raise AttributeError — and the first
table phrase contained in the lowercased description (the loop's `break`)
overwrites the event tag. -/
def add_adobe_event_record (entry : Record) : Except PyErr Record :=
  let entry₁ := entry.set "event" (.str "")
  match entry₁.get? "eventDescription" with
  | none => .error .keyError
  | some (.str s) =>
    let descL := s.data.map Char.toLower
    match event_name_dict.find?
        (fun p => containsSub (p.2.data.map Char.toLower) descL) with
    | some p => .ok (entry₁.set "event" (.str p.1))
    | none => .ok entry₁
  | some _ => .error .attributeError

/-- `AdobeAPI.add_adobe_events` (src/adobe_usage.py:338-399) on the record
list held by the JSON file. -/
def add_adobe_events (logs : List Record) : Except PyErr (List Record) :=
  mapExcept add_adobe_event_record logs

/-- One data row of the bulk-import CSV, in the column order of
`AdobeAPI.write_to_csv_for_bulk_import` (src/adobe_usage.py:415-431).
The timestamp column holds the integer epoch seconds written there; the
CSV string round-trip through `int(row[1])` in the extractor is lossless. -/
structure Row where
  reportSuiteID : String
  timestamp : Nat
  mcvid : String
  pageName : String
  userAgent : String
  evar1 : String
  evar2 : String
  evar3 : String
  evar4 : String
  evar5 : String
  evar6 : String
  evar7 : String
  events : String
deriving DecidableEq, Repr

/-- How `csv.writer.writerow` renders one value: `None` as the empty cell,
anything else via `str`. -/
def csvCell : JVal → String
  | .null => ""
  | .str s => s
  | .num n => toString n

/-- `login.split("@")[0]`: the part before the first `@`, or the whole string
when it holds none. -/
def localPart (s : String) : String :=
  ⟨s.data.takeWhile (fun c => c ≠ '@')⟩

/-- The `login` branch of the CSV loop (src/adobe_usage.py:439-445).
`loginVar` is the Python local variable `login`, which is only assigned on
the non-null branch: a null login leaves it holding whatever a previous
iteration stored (or nothing at all).  A non-string, non-null login would
fail `.split` with AttributeError.  Returns the visitor id and the variable's
new state. -/
def loginMcvid (loginVar : Option String) : JVal → Except PyErr (String × Option String)
  | .null => .ok ("unknown", loginVar)
  | .str s => .ok (localPart s, some (localPart s))
  | .num _ => .error .attributeError

/-- The body of the CSV loop of `AdobeAPI.write_to_csv_for_bulk_import`
(src/adobe_usage.py:433-480) for one record, in source order: the
`eventType`/`eventDescription` item accesses of the f-string (KeyError when
absent), the creation-timestamp parse (the parsed epoch seconds are carried
as `JVal.num`; an absent key is a KeyError, anything else fails the parse),
the login branch, `evar_1 = login` (NameError when the variable was never
assigned), the component fields via `log.get(..., "")`, and `log["event"]`.
Returns the row and the state of the `login` variable after this
iteration. -/
def export_record (rsid : String) (loginVar : Option String) (log : Record) :
    Except PyErr (Row × Option String) :=
  match log.get? "eventType" with
  | none => .error .keyError
  | some et =>
    match log.get? "eventDescription" with
    | none => .error .keyError
    | some ed =>
      match log.get? "dateCreated" with
      | none => .error .keyError
      | some (.str _) => .error .valueError
      | some .null => .error .typeError
      | some (.num ts) =>
        match log.get? "login" with
        | none => .error .keyError
        | some loginVal =>
          match loginMcvid loginVar loginVal with
          | .error e => .error e
          | .ok (mcvid, loginVar₂) =>
            match loginVar₂ with
            | none => .error .nameError
            | some evar1 =>
              match log.get? "event" with
              | none => .error .keyError
              | some ev =>
                .ok ({ reportSuiteID := rsid
                       timestamp := ts
                       mcvid := mcvid
                       pageName := et.pyStr ++ ";" ++ ed.pyStr
                       userAgent := "filler_user_agent"
                       evar1 := evar1
                       evar2 := et.pyStr ++ ";" ++ ed.pyStr
                       evar3 := csvCell et
                       evar4 := csvCell ed
                       evar5 := csvCell (log.getD "componentId" (.str ""))
                       evar6 := csvCell (log.getD "componentName" (.str ""))
                       evar7 := csvCell (log.getD "componentOwner" (.str ""))
                       events := csvCell ev }, loginVar₂)

/-- The CSV loop over all records, threading the shared `login` local
variable from one iteration to the next. -/
def write_rows (rsid : String) (loginVar : Option String) :
    List Record → Except PyErr (List Row)
  | [] => .ok []
  | log :: rest =>
    match export_record rsid loginVar log with
    | .error e => .error e
    | .ok (row, loginVar₂) =>
      match write_rows rsid loginVar₂ rest with
      | .error e => .error e
      | .ok rows => .ok (row :: rows)

/-- `AdobeAPI.write_to_csv_for_bulk_import` (src/adobe_usage.py:401-482):
the data rows written after the header.  The `login` variable starts
unassigned. -/
def write_to_csv_for_bulk_import (rsid : String) (logs : List Record) :
    Except PyErr (List Row) :=
  write_rows rsid none logs

/-- The value of a successful computation, `none` on an exception. -/
def okValue {α : Type} : Except PyErr α → Option α
  | .ok a => some a
  | .error _ => none

/-- Python truthiness of the extractor's `rsid` variable: falsy when still
None or when it holds the empty string. -/
def rsidFalsy : Option String → Bool
  | none => true
  | some s => s.isEmpty

/-- The row loop of `AdobeAPI.extract_rsid_and_date_range`
(src/adobe_usage.py:593-612) with its three accumulators.  A falsy `rsid`
takes the row's value; otherwise a differing value raises ValueError.  The
row's day is `datetime.utcfromtimestamp(int(row[1])).date()`, the floor
division of the epoch seconds by 86400.  At the end, an empty CSV leaves
`min_date`/`max_date` as None and `min_date.strftime` raises
AttributeError. -/
def extract_go : Option String → Option Nat → Option Nat → List Row →
    Except PyErr (String × Nat × Nat)
  | rsid?, mi, ma, [] =>
    match rsid?, mi, ma with
    | some r, some a, some b => .ok (r, a, b)
    | _, _, _ => .error .attributeError
  | rsid?, mi, ma, row :: rest =>
    let d := row.timestamp / 86400
    let mi' := match mi with | none => some d | some m => some (if d < m then d else m)
    let ma' := match ma with | none => some d | some m => some (if d > m then d else m)
    if rsidFalsy rsid? then extract_go (some row.reportSuiteID) mi' ma' rest
    else if row.reportSuiteID = rsid?.getD "" then extract_go rsid? mi' ma' rest
    else .error .valueError

/-- `AdobeAPI.extract_rsid_and_date_range` (src/adobe_usage.py:575-612) on the
data rows of the CSV: the report-suite id and the minimum and maximum day
found. -/
def extract_rsid_and_date_range (rows : List Row) : Except PyErr (String × Nat × Nat) :=
  extract_go none none none rows

/-- The minimum of a non-empty list of days, as the extractor's running fold
computes it (0 for an empty list, which the extractor never returns). -/
def listMin : List Nat → Nat
  | [] => 0
  | d :: ds => ds.foldl Nat.min d

/-- The maximum of a non-empty list of days, same shape. -/
def listMax : List Nat → Nat
  | [] => 0
  | d :: ds => ds.foldl Nat.max d

/-- The epoch-second creation timestamp a record carries, when it has one. -/
def recordTs (r : Record) : Option Nat :=
  match r.get? "dateCreated" with
  | some (.num t) => some t
  | _ => none

/-- The calendar day of a record's creation timestamp. -/
def recordDay (r : Record) : Option Nat :=
  (recordTs r).map (fun t => t / 86400)

/-- The shared `requests.Session`, reduced to its header dictionary. -/
structure Session where
  headers : List (String × String)
deriving DecidableEq, Repr

/-- `self.session.headers.update(new)`. -/
def Session.update (s : Session) (new : List (String × String)) : Session :=
  ⟨new.foldl (fun hs kv => updAssoc hs kv.1 kv.2) s.headers⟩

/-- `self.session.headers.pop(k, None)`. -/
def Session.pop (s : Session) (k : String) : Session :=
  ⟨popAssoc s.headers k⟩

/-- The `additional_headers` dict of `validate_csv` and `bulk_data_insertion`
(src/adobe_usage.py:545-548 and 740-743). -/
def additional_headers : List (String × String) :=
  [("accept", "application/json"), ("x-adobe-vgid", "usage_group1")]

/-- What one `session.post` to the collection endpoints yields: a response
(its HTTP status and the body's boolean `success` flag), or an exception
raised by the requests library before any response exists (timeout,
connection error). -/
inductive HttpOutcome where
  | response (status : Nat) (success : Bool)
  | raised
deriving DecidableEq, Repr

/-- `AdobeAPI.validate_csv` (src/adobe_usage.py:534-573) as a transformer of
the shared session's headers, the network and file effects abstracted into
`gzipOk` (whether `gzip_file` succeeds) and `post`.  Source order: the
additional headers are added; the file is gzipped; the request is made; the
headers are popped; only then is the status checked.  There is no
try/finally, so an exception from gzip or from the request itself propagates
with the headers still in place. -/
def validate_csv (s : Session) (gzipOk : Bool) (post : HttpOutcome) :
    Except PyErr Bool × Session :=
  let s₁ := s.update additional_headers
  if !gzipOk then (.error .ioError, s₁)
  else
    match post with
    | .raised => (.error .requestException, s₁)
    | .response status success =>
      let s₂ := (s₁.pop "accept").pop "x-adobe-vgid"
      if status = 200 then (.ok success, s₂)
      else (.error .requestFailure, s₂)

/-- What the reporting query of `is_there_existing_data_for_date_range`
yields: a response with its status and, when the JSON holds the
`summaryData`/`totals` keys, that totals list; or a raised requests
exception. -/
inductive ReportOutcome where
  | response (status : Nat) (totals : Option (List Int))
  | raised
deriving DecidableEq, Repr

/-- The decision of `AdobeAPI.is_there_existing_data_for_date_range`
(src/adobe_usage.py:672-708) on the reporting response: on a 200, the missing
`summaryData`/`totals` keys raise KeyError, an empty totals list fails the
`[0]` index, and otherwise the check is `totals[0] > 2`; any other status
raises RequestFailure. -/
def is_there_existing_data_for_date_range (resp : ReportOutcome) : Except PyErr Bool :=
  match resp with
  | .raised => .error .requestException
  | .response status totals? =>
    if status = 200 then
      match totals? with
      | none => .error .keyError
      | some [] => .error .indexError
      | some (t :: _) => .ok (decide (t > 2))
    else .error .requestFailure

/-- The external effects `bulk_data_insertion` runs through: whether gzip
succeeds, the validation POST, the reporting query, and the ingestion
POST. -/
structure BulkEnv where
  gzipOk : Bool
  validatePost : HttpOutcome
  report : ReportOutcome
  ingestPost : HttpOutcome
deriving DecidableEq, Repr

deriving instance DecidableEq for Except

/-- What a `bulk_data_insertion` call leaves behind: its result, the shared
session's headers, and whether a POST to the ingestion endpoint was ever
made. -/
structure BulkResult where
  result : Except PyErr Bool
  session : Session
  postedIngestion : Bool
deriving DecidableEq, Repr

/-- `AdobeAPI.bulk_data_insertion` (src/adobe_usage.py:710-768): validate the
CSV (RequestFailure when the validation's success flag is false), run the
existing-data check and raise ExistingDataError when it reports data, and
only then gzip and POST to the ingestion endpoint, with the same
add-headers / gzip / post / pop-headers / status-check sequence as
`validate_csv`. -/
def bulk_data_insertion (s : Session) (env : BulkEnv) : BulkResult :=
  match validate_csv s env.gzipOk env.validatePost with
  | (.error e, s₁) => ⟨.error e, s₁, false⟩
  | (.ok success, s₁) =>
    if !success then ⟨.error .requestFailure, s₁, false⟩
    else
      match is_there_existing_data_for_date_range env.report with
      | .error e => ⟨.error e, s₁, false⟩
      | .ok true => ⟨.error .existingDataError, s₁, false⟩
      | .ok false =>
        let s₂ := s₁.update additional_headers
        if !env.gzipOk then ⟨.error .ioError, s₂, false⟩
        else
          match env.ingestPost with
          | .raised => ⟨.error .requestException, s₂, true⟩
          | .response status success₂ =>
            let s₃ := (s₂.pop "accept").pop "x-adobe-vgid"
            if status = 200 then ⟨.ok success₂, s₃, true⟩
            else ⟨.error .requestFailure, s₃, true⟩

/-- Demonstration record with a present, non-null login. -/
def demoLoginRec : Record :=
  ⟨[("eventType", .str "Report viewed"), ("eventDescription", .str "d1"),
    ("dateCreated", .num 1000), ("login", .str "alice@example.com"),
    ("event", .str "")]⟩

/-- Demonstration record whose login key is present but null. -/
def demoNullLoginRec : Record :=
  ⟨[("eventType", .str "Report viewed"), ("eventDescription", .str "d2"),
    ("dateCreated", .num 200000), ("login", .null), ("event", .str "")]⟩

/-- A second well-formed demonstration record, a day later. -/
def demoLoginRec₂ : Record :=
  ⟨[("eventType", .str "Admin Action"), ("eventDescription", .str "d3"),
    ("dateCreated", .num 90000), ("login", .str "bob@example.com"),
    ("event", .str "event2")]⟩

/-- The rows `write_to_csv_for_bulk_import` produces for
`[demoLoginRec, demoLoginRec₂]` under report suite "rs". -/
def demoRows : List Row :=
  [{ reportSuiteID := "rs", timestamp := 1000, mcvid := "alice",
     pageName := "Report viewed;d1", userAgent := "filler_user_agent",
     evar1 := "alice", evar2 := "Report viewed;d1", evar3 := "Report viewed",
     evar4 := "d1", evar5 := "", evar6 := "", evar7 := "", events := "" },
   { reportSuiteID := "rs", timestamp := 90000, mcvid := "bob",
     pageName := "Admin Action;d3", userAgent := "filler_user_agent",
     evar1 := "bob", evar2 := "Admin Action;d3", evar3 := "Admin Action",
     evar4 := "d3", evar5 := "", evar6 := "", evar7 := "", events := "event2" }]

/-- Demonstration record carrying only a description. -/
def demoDescRec : Record := ⟨[("eventDescription", JVal.str "x")]⟩

def demoDescRecTagged : Record :=
  ⟨[("eventDescription", JVal.str "x"), ("event", JVal.str "")]⟩

/-
Helper lemmas about the dictionary operations.
-/

theorem lookupAssoc_updAssoc_self {α : Type} (l : List (String × α)) (k : String) (v : α) :
    lookupAssoc (updAssoc l k v) k = some v := by
  induction l with
  | nil => simp [updAssoc, lookupAssoc]
  | cons p rest ih =>
    by_cases h : p.1 = k
    · simp [updAssoc, lookupAssoc, h]
    · simp [updAssoc, lookupAssoc, h, ih]

theorem lookupAssoc_updAssoc_ne {α : Type} (l : List (String × α)) (k k₂ : String)
    (v : α) (h : k₂ ≠ k) : lookupAssoc (updAssoc l k v) k₂ = lookupAssoc l k₂ := by
  induction l with
  | nil => simp [updAssoc, lookupAssoc, Ne.symm h]
  | cons p rest ih =>
    obtain ⟨k₁, v₁⟩ := p
    by_cases hp : k₁ = k
    · subst hp
      simp only [updAssoc, if_pos rfl, lookupAssoc]
      rw [if_neg (Ne.symm h), if_neg (Ne.symm h)]
    · simp only [updAssoc, if_neg hp, lookupAssoc]
      by_cases hk : k₁ = k₂
      · simp [hk]
      · simp [hk, ih]

theorem Record.get?_set_self (r : Record) (k : String) (v : JVal) :
    (r.set k v).get? k = some v :=
  lookupAssoc_updAssoc_self r.fields k v

theorem Record.get?_set_ne (r : Record) (k k₂ : String) (v : JVal) (h : k₂ ≠ k) :
    (r.set k v).get? k₂ = r.get? k₂ :=
  lookupAssoc_updAssoc_ne r.fields k k₂ v h

/-
Helper lemmas about mapExcept.
-/

theorem mapExcept_ok_forall₂ {α β : Type} (f : α → Except PyErr β) :
    ∀ (l : List α) (out : List β), mapExcept f l = .ok out →
      List.Forall₂ (fun a b => f a = .ok b) l out := by
  intro l
  induction l with
  | nil => intro out h; simp [mapExcept] at h; subst h; exact .nil
  | cons x xs ih =>
    intro out h
    simp only [mapExcept] at h
    cases hx : f x with
    | error e => rw [hx] at h; cases h
    | ok y =>
      rw [hx] at h
      cases hrest : mapExcept f xs with
      | error e => rw [hrest] at h; cases h
      | ok ys =>
        rw [hrest] at h
        cases h
        exact .cons hx (ih ys hrest)

theorem mapExcept_total {α β : Type} (f : α → Except PyErr β)
    (l : List α) (h : ∀ x ∈ l, ∃ y, f x = .ok y) :
    ∃ out, mapExcept f l = .ok out ∧ out.length = l.length := by
  induction l with
  | nil => exact ⟨[], rfl, rfl⟩
  | cons x xs ih =>
    obtain ⟨y, hy⟩ := h x (List.mem_cons_self x xs)
    obtain ⟨ys, hys, hlen⟩ := ih (fun z hz => h z (List.mem_cons_of_mem x hz))
    exact ⟨y :: ys, by simp [mapExcept, hy, hys], by simp [hlen]⟩

/-- Claim C1 (code_bug evidence).  The claim says the fetcher's sub-windows
cover every overall range of more than 89 days with no gaps.  For the range
of days 0..90 (end minus start = 90 days, e.g. 2022-01-01 to 2022-04-01) the
loop produces the single window [0, 89] and stops — the guard compares the
next start, carrying time 23:59:59, against the end date at midnight — so
day 90, part of the inclusive range, is covered by no window.  For days
0..91 the second window does appear and the range is covered. -/
theorem c1_window_gap :
    get_usage_audit_log_windows 0 90 = [(0, 89)] ∧
    (∀ w ∈ get_usage_audit_log_windows 0 90, ¬(w.1 ≤ 90 ∧ 90 ≤ w.2)) ∧
    get_usage_audit_log_windows 0 91 = [(0, 89), (90, 91)] := by
  decide

/-- Claim C3: for start ≤ end (as day numbers), `inclusive_date_range`
returns the parsed start (midnight of the start day) and an end equal to the
start of the day after the given end minus one second; when start = end the
window spans exactly one calendar day (86400 seconds inclusive). -/
theorem c3_inclusive_range (s e : Nat) (h : s ≤ e) :
    inclusive_date_range s e = .ok (s * 86400, (e + 1) * 86400 - 1) ∧
    (s = e → ((e + 1) * 86400 - 1) - s * 86400 + 1 = 86400) := by
  constructor
  · unfold inclusive_date_range
    rw [if_neg (by omega)]
    have he : e * 86400 + 86400 - 1 = (e + 1) * 86400 - 1 := by ring_nf
    rw [he]
  · intro hse
    subst hse
    omega

/-- Witness for C3 at the concrete range day 3 to day 5 (and, for the
one-day part, day 7 to day 7). -/
theorem c3_inclusive_range_witness :
    (inclusive_date_range 3 5 = .ok (3 * 86400, (5 + 1) * 86400 - 1) ∧
      (3 = 5 → ((5 + 1) * 86400 - 1) - 3 * 86400 + 1 = 86400)) ∧
    (inclusive_date_range 7 7 = .ok (7 * 86400, (7 + 1) * 86400 - 1) ∧
      (7 = 7 → ((7 + 1) * 86400 - 1) - 7 * 86400 + 1 = 86400)) :=
  ⟨c3_inclusive_range 3 5 (by decide), c3_inclusive_range 7 7 (by decide)⟩

/-- Claim C6 (code_bug evidence).  The claim says the temporary headers
(`accept`, `x-adobe-vgid`) are removed again before `validate_csv` or
`bulk_data_insertion` finishes, including when the call fails.  When the
HTTP POST itself raises (timeout, connection error) there is no try/finally
and the headers stay on the shared session; the restoration does happen when
a response arrives, even with a failure status. -/
theorem c6_header_leak :
    (validate_csv ⟨[("Authorization", "Bearer t"), ("x-api-key", "k")]⟩ true .raised).2 =
      ⟨[("Authorization", "Bearer t"), ("x-api-key", "k"),
        ("accept", "application/json"), ("x-adobe-vgid", "usage_group1")]⟩ ∧
    lookupAssoc (validate_csv ⟨[("Authorization", "Bearer t"), ("x-api-key", "k")]⟩
        true .raised).2.headers "accept" = some "application/json" ∧
    (validate_csv ⟨[("Authorization", "Bearer t"), ("x-api-key", "k")]⟩ true
        (.response 400 false)).2 =
      ⟨[("Authorization", "Bearer t"), ("x-api-key", "k")]⟩ ∧
    (bulk_data_insertion ⟨[("Authorization", "Bearer t"), ("x-api-key", "k")]⟩
        ⟨true, .response 200 true, .response 200 (some [0]), .raised⟩).session =
      ⟨[("Authorization", "Bearer t"), ("x-api-key", "k"),
        ("accept", "application/json"), ("x-adobe-vgid", "usage_group1")]⟩ := by
  decide

/-- Claim C8 (code_bug evidence).  The claim says each exported row's visitor
identifier is the local part of that record's login (or "unknown" when the
login is null) and that eVar1 is populated from that same record's login.
The visitor-identifier part holds, but the Python local `login` is only
assigned on the non-null branch: a null-login record following
`alice@example.com` is exported with eVar1 = "alice" (the previous record's
local part), and a null-login record with no such predecessor crashes the
whole export with an unbound-local NameError instead of exporting the
"unknown" row. -/
theorem c8_stale_evar1 :
    (okValue (write_to_csv_for_bulk_import "rs" [demoLoginRec, demoNullLoginRec])).map
        (fun rows => (rows.map Row.mcvid, rows.map Row.evar1)) =
      some (["alice", "unknown"], ["alice", "alice"]) ∧
    demoNullLoginRec.get? "login" = some .null ∧
    write_to_csv_for_bulk_import "rs" [demoNullLoginRec] = .error .nameError := by
  decide

/-- Bulk insertion never reaches the ingestion endpoint once the
existing-data check reports data, and (when validation succeeded) fails with
the distinct ExistingDataError kind. -/
theorem bulk_blocked_on_existing_data (s : Session) (env : BulkEnv)
    (h : is_there_existing_data_for_date_range env.report = .ok true) :
    (bulk_data_insertion s env).postedIngestion = false ∧
    (env.gzipOk = true → env.validatePost = .response 200 true →
      (bulk_data_insertion s env).result = .error .existingDataError) := by
  obtain ⟨gz, vp, rep, ip⟩ := env
  simp only at h
  constructor
  · simp only [bulk_data_insertion]
    cases hval : validate_csv s gz vp with
    | mk res s₁ =>
      cases res with
      | error e => simp
      | ok success =>
        cases success with
        | false => simp
        | true => simp [h]
  · intro hgz hvp
    simp only at hgz hvp
    subst hgz
    subst hvp
    simp [bulk_data_insertion, validate_csv, h]

/-- Claim C2: with the reporting query returning totals headed by `t`, a
total of 2 or fewer makes `is_there_existing_data_for_date_range` report no
existing data and lets `bulk_data_insertion` proceed to the ingestion POST
(when validation succeeded); a total of 3 or more makes it report existing
data, upon which `bulk_data_insertion` raises the distinct ExistingDataError
kind and never posts to the ingestion endpoint. -/
theorem c2_existing_data_guard (s : Session) (env : BulkEnv) (t : Int)
    (rest : List Int) (hrep : env.report = .response 200 (some (t :: rest))) :
    (t ≤ 2 →
      is_there_existing_data_for_date_range env.report = .ok false ∧
      (env.gzipOk = true → env.validatePost = .response 200 true →
        (bulk_data_insertion s env).postedIngestion = true)) ∧
    (3 ≤ t →
      is_there_existing_data_for_date_range env.report = .ok true ∧
      (bulk_data_insertion s env).postedIngestion = false ∧
      (env.gzipOk = true → env.validatePost = .response 200 true →
        (bulk_data_insertion s env).result = .error .existingDataError)) := by
  constructor
  · intro ht
    have hno : is_there_existing_data_for_date_range env.report = .ok false := by
      rw [hrep]
      simp [is_there_existing_data_for_date_range, decide_eq_false (by omega : ¬(2 : Int) < t)]
    refine ⟨hno, ?_⟩
    intro hgz hvp
    obtain ⟨gz, vp, rep, ip⟩ := env
    simp only at hgz hvp
    subst hgz
    subst hvp
    simp only [bulk_data_insertion, validate_csv, hno]
    cases ip with
    | raised => simp [bulk_data_insertion, validate_csv, hno]
    | response st suc =>
      by_cases hst : st = 200 <;>
        simp_all [bulk_data_insertion, validate_csv, hno, hst]
  · intro ht
    have hyes : is_there_existing_data_for_date_range env.report = .ok true := by
      rw [hrep]
      simp [is_there_existing_data_for_date_range, decide_eq_true (by omega : (2 : Int) < t)]
    obtain ⟨hposted, hresult⟩ := bulk_blocked_on_existing_data s env hyes
    exact ⟨hyes, hposted, hresult⟩

/-- Witness for C2 at totals 0 (proceeds) and 5 (blocked), with a base
session and successful validation. -/
theorem c2_existing_data_guard_witness :
    ((0 : Int) ≤ 2 →
      is_there_existing_data_for_date_range (.response 200 (some [0])) = .ok false ∧
      (true = true → HttpOutcome.response 200 true = .response 200 true →
        (bulk_data_insertion ⟨[]⟩
          ⟨true, .response 200 true, .response 200 (some [0]),
            .response 200 true⟩).postedIngestion = true)) ∧
    ((3 : Int) ≤ 5 →
      is_there_existing_data_for_date_range (.response 200 (some [5])) = .ok true ∧
      (bulk_data_insertion ⟨[]⟩
        ⟨true, .response 200 true, .response 200 (some [5]),
          .response 200 true⟩).postedIngestion = false ∧
      (true = true → HttpOutcome.response 200 true = .response 200 true →
        (bulk_data_insertion ⟨[]⟩
          ⟨true, .response 200 true, .response 200 (some [5]),
            .response 200 true⟩).result = .error .existingDataError)) :=
  ⟨(c2_existing_data_guard ⟨[]⟩
      ⟨true, .response 200 true, .response 200 (some [0]), .response 200 true⟩
      0 [] rfl).1,
   fun _ => (c2_existing_data_guard ⟨[]⟩
      ⟨true, .response 200 true, .response 200 (some [5]), .response 200 true⟩
      5 [] rfl).2 (by decide)⟩

theorem export_record_missing_dateCreated (rsid : String) (lv : Option String)
    (log : Record) (h : log.get? "dateCreated" = none) :
    ∃ e, export_record rsid lv log = .error e := by
  unfold export_record
  cases het : log.get? "eventType" with
  | none => exact ⟨_, rfl⟩
  | some et =>
    cases hed : log.get? "eventDescription" with
    | none => exact ⟨_, rfl⟩
    | some ed =>
      rw [h]
      exact ⟨_, rfl⟩

theorem write_rows_length (rsid : String) :
    ∀ (logs : List Record) (lv : Option String) (rows : List Row),
      write_rows rsid lv logs = .ok rows → rows.length = logs.length := by
  intro logs
  induction logs with
  | nil =>
    intro lv rows h
    simp only [write_rows] at h
    cases h
    rfl
  | cons log rest ih =>
    intro lv rows h
    simp only [write_rows] at h
    cases hx : export_record rsid lv log with
    | error e => rw [hx] at h; cases h
    | ok p =>
      obtain ⟨row, lv₂⟩ := p
      rw [hx] at h
      dsimp only at h
      cases hr : write_rows rsid lv₂ rest with
      | error e => rw [hr] at h; cases h
      | ok rows₂ =>
        rw [hr] at h
        cases h
        simp [ih lv₂ rows₂ hr]

theorem write_rows_error_of_missing (rsid : String) :
    ∀ (logs : List Record) (lv : Option String),
      (∃ r ∈ logs, r.get? "dateCreated" = none) →
      ∃ e, write_rows rsid lv logs = .error e := by
  intro logs
  induction logs with
  | nil =>
    intro lv h
    obtain ⟨r, hr, _⟩ := h
    cases hr
  | cons log rest ih =>
    intro lv h
    obtain ⟨r, hr, hnone⟩ := h
    rw [List.mem_cons] at hr
    cases hr with
    | inl heq =>
      subst heq
      obtain ⟨e, he⟩ := export_record_missing_dateCreated rsid lv r hnone
      exact ⟨e, by simp [write_rows, he]⟩
    | inr hmem =>
      cases hx : export_record rsid lv log with
      | error e => exact ⟨e, by simp [write_rows, hx]⟩
      | ok p =>
        obtain ⟨row, lv₂⟩ := p
        obtain ⟨e, he⟩ := ih lv₂ ⟨r, hmem, hnone⟩
        exact ⟨e, by simp [write_rows, hx, he]⟩

theorem export_record_fields (rsid : String) (lv : Option String) (log : Record)
    (row : Row) (lv₂ : Option String)
    (h : export_record rsid lv log = .ok (row, lv₂)) :
    recordTs log = some row.timestamp ∧ row.reportSuiteID = rsid := by
  unfold export_record at h
  cases het : log.get? "eventType" with
  | none => simp [het] at h
  | some et =>
  cases hed : log.get? "eventDescription" with
  | none => simp [het, hed] at h
  | some ed =>
  cases hdc : log.get? "dateCreated" with
  | none => simp [het, hed, hdc] at h
  | some v =>
  cases v with
  | str s => simp [het, hed, hdc] at h
  | null => simp [het, hed, hdc] at h
  | num ts =>
  cases hlg : log.get? "login" with
  | none => simp [het, hed, hdc, hlg] at h
  | some loginVal =>
  cases hm : loginMcvid lv loginVal with
  | error e => simp [het, hed, hdc, hlg, hm] at h
  | ok p =>
  obtain ⟨mcvid, lvv⟩ := p
  cases lvv with
  | none => simp [het, hed, hdc, hlg, hm] at h
  | some evar1 =>
  cases hev : log.get? "event" with
  | none => simp [het, hed, hdc, hlg, hm, hev] at h
  | some ev =>
  simp only [het, hed, hdc, hlg, hm, hev] at h
  rw [Except.ok.injEq, Prod.mk.injEq] at h
  obtain ⟨h₁, h₂⟩ := h
  subst h₁
  exact ⟨by simp [recordTs, hdc], rfl⟩

theorem ite_lt_min (d m : Nat) : (if d < m then d else m) = min m d := by
  rcases Nat.lt_or_ge d m with h | h
  · rw [if_pos h]
    omega
  · rw [if_neg (by omega)]
    omega

theorem ite_gt_max (d m : Nat) : (if d > m then d else m) = max m d := by
  rcases Nat.lt_or_ge m d with h | h
  · rw [if_pos h]
    omega
  · rw [if_neg (by omega)]
    omega

theorem write_rows_spec (rsid : String) :
    ∀ (logs : List Record) (lv : Option String) (rows : List Row),
      write_rows rsid lv logs = .ok rows →
      rows.map Row.timestamp = logs.filterMap recordTs ∧
      ∀ row ∈ rows, row.reportSuiteID = rsid := by
  intro logs
  induction logs with
  | nil =>
    intro lv rows h
    simp only [write_rows] at h
    cases h
    exact ⟨rfl, by simp⟩
  | cons log rest ih =>
    intro lv rows h
    simp only [write_rows] at h
    cases hx : export_record rsid lv log with
    | error e => rw [hx] at h; cases h
    | ok p =>
      obtain ⟨row, lv₂⟩ := p
      rw [hx] at h
      dsimp only at h
      cases hr : write_rows rsid lv₂ rest with
      | error e => rw [hr] at h; cases h
      | ok rows₂ =>
        rw [hr] at h
        cases h
        obtain ⟨hts, hrs⟩ := ih lv₂ rows₂ hr
        obtain ⟨hts₁, hrs₁⟩ := export_record_fields rsid lv log row lv₂ hx
        constructor
        · simp [List.filterMap_cons, hts₁, hts]
        · intro r hrmem
          rcases List.mem_cons.mp hrmem with h1 | h2
          · subst h1; exact hrs₁
          · exact hrs r h2

theorem extract_go_const (r₀ : String) :
    ∀ (rows : List Row) (a b : Nat),
      (∀ row ∈ rows, row.reportSuiteID = r₀) →
      extract_go (some r₀) (some a) (some b) rows =
        .ok (r₀, rows.foldl (fun m row => min m (row.timestamp / 86400)) a,
             rows.foldl (fun m row => max m (row.timestamp / 86400)) b) := by
  intro rows
  induction rows with
  | nil => intro a b _; rfl
  | cons row rest ih =>
    intro a b h
    have hrow : row.reportSuiteID = r₀ := h row (List.mem_cons_self _ _)
    have hrest : ∀ x ∈ rest, x.reportSuiteID = r₀ :=
      fun x hx => h x (List.mem_cons_of_mem _ hx)
    simp only [extract_go, rsidFalsy, ite_lt_min, ite_gt_max]
    cases hemp : r₀.isEmpty with
    | true =>
      rw [if_pos rfl, hrow, List.foldl_cons, List.foldl_cons]
      exact ih _ _ hrest
    | false =>
      rw [if_neg (by simp), if_pos (by simp [hrow]), List.foldl_cons, List.foldl_cons]
      exact ih _ _ hrest

theorem extract_const (r₀ : String) (rows : List Row) (hne : rows ≠ [])
    (h : ∀ row ∈ rows, row.reportSuiteID = r₀) :
    extract_rsid_and_date_range rows =
      .ok (r₀, listMin (rows.map (fun row => row.timestamp / 86400)),
           listMax (rows.map (fun row => row.timestamp / 86400))) := by
  cases rows with
  | nil => cases hne rfl
  | cons row rest =>
    have hrow := h row (List.mem_cons_self _ _)
    have hrest : ∀ x ∈ rest, x.reportSuiteID = r₀ :=
      fun x hx => h x (List.mem_cons_of_mem _ hx)
    unfold extract_rsid_and_date_range
    simp only [extract_go, rsidFalsy]
    rw [if_pos trivial, hrow, extract_go_const r₀ rest _ _ hrest]
    simp [listMin, listMax, List.foldl_map]

/-- Claim C5 (round-trip): exporting a non-empty record list with
`write_to_csv_for_bulk_import` under report-suite id `rsid` and then parsing
the table with `extract_rsid_and_date_range` yields the same `rsid` and the
minimum and maximum creation-day bounds of the records that built it. -/
theorem c5_roundtrip (rsid : String) (logs : List Record) (rows : List Row)
    (h : write_to_csv_for_bulk_import rsid logs = .ok rows) (hne : logs ≠ []) :
    extract_rsid_and_date_range rows =
      .ok (rsid, listMin (logs.filterMap recordDay), listMax (logs.filterMap recordDay)) := by
  obtain ⟨hts, hrs⟩ := write_rows_spec rsid logs none rows h
  have hlen := write_rows_length rsid logs none rows h
  have hrne : rows ≠ [] := by
    intro hr
    apply hne
    subst hr
    exact List.length_eq_zero.mp hlen.symm
  have hdays : rows.map (fun row => row.timestamp / 86400) = logs.filterMap recordDay := by
    have h1 : rows.map (fun row => row.timestamp / 86400)
        = (rows.map Row.timestamp).map (fun t => t / 86400) := by
      simp [List.map_map]
    rw [h1, hts, List.map_filterMap]
    rfl
  rw [extract_const rsid rows hrne hrs, hdays]

/-- Claim C4: `write_to_csv_for_bulk_import` emits exactly one CSV data row
per input record (whenever the export succeeds), and any record missing its
creation timestamp (`dateCreated`) makes the whole export fail with a hard
error — no per-row skip semantics. -/
theorem c4_export_rows (rsid : String) (logs : List Record) :
    (∀ rows, write_to_csv_for_bulk_import rsid logs = .ok rows →
      rows.length = logs.length) ∧
    ((∃ r ∈ logs, r.get? "dateCreated" = none) →
      ∃ e, write_to_csv_for_bulk_import rsid logs = .error e) :=
  ⟨fun rows h => write_rows_length rsid logs none rows h,
   fun h => write_rows_error_of_missing rsid logs none h⟩

theorem c4_export_rows_witness :
    ((write_to_csv_for_bulk_import "rs" [demoLoginRec, demoLoginRec₂] = .ok demoRows →
      demoRows.length = ([demoLoginRec, demoLoginRec₂] : List Record).length) ∧
      (∃ e, write_to_csv_for_bulk_import "rs" [Record.mk []] = .error e)) :=
  ⟨fun h => (c4_export_rows "rs" [demoLoginRec, demoLoginRec₂]).1 demoRows h,
   (c4_export_rows "rs" [Record.mk []]).2 ⟨Record.mk [], by decide, by decide⟩⟩

theorem c5_roundtrip_witness :
    extract_rsid_and_date_range demoRows =
      .ok ("rs", listMin ([demoLoginRec, demoLoginRec₂].filterMap recordDay),
           listMax ([demoLoginRec, demoLoginRec₂].filterMap recordDay)) :=
  c5_roundtrip "rs" [demoLoginRec, demoLoginRec₂] demoRows (by decide) (by decide)

/-- Claim C7: on the description `Name=Foo Bar Id=abc123 Owner=Jane Smith`,
`add_component_info` sets componentName "Foo Bar", componentId "abc123" and
componentOwner "Jane Smith"; every matching record whose Owner group is
absent gets the "N/A" sentinel; every record whose description does not
match the pattern is left unmodified. -/
theorem c7_component_extraction :
    (okValue (add_component_info
        [⟨[("eventDescription", .str "Name=Foo Bar Id=abc123 Owner=Jane Smith")]⟩])).map
        (fun out => out.map (fun r =>
          (r.get? "componentName", r.get? "componentId", r.get? "componentOwner"))) =
      some [(some (.str "Foo Bar"), some (.str "abc123"), some (.str "Jane Smith"))] ∧
    (∀ (item : Record) (desc : String) (nm idp : List Char),
      item.getD "eventDescription" (.str "") = .str desc →
      regexSearchComp desc.data = some (nm, idp, none) →
      ∃ r', add_component_info_record item = .ok r' ∧
        r'.get? "componentOwner" = some (.str "N/A")) ∧
    (∀ (item : Record) (desc : String),
      item.getD "eventDescription" (.str "") = .str desc →
      regexSearchComp desc.data = none →
      add_component_info_record item = .ok item) := by
  refine ⟨by decide, ?_, ?_⟩
  · intro item desc nm idp hdesc hsearch
    simp only [add_component_info_record, hdesc, hsearch]
    exact ⟨_, rfl, Record.get?_set_self _ _ _⟩
  · intro item desc hdesc hsearch
    simp only [add_component_info_record, hdesc, hsearch]

theorem c7_component_extraction_witness :
    (∃ r', add_component_info_record ⟨[("eventDescription", .str "Name=A Id=b")]⟩ = .ok r' ∧
      r'.get? "componentOwner" = some (.str "N/A")) ∧
    add_component_info_record ⟨[("eventDescription", .str "no component here")]⟩ =
      .ok ⟨[("eventDescription", .str "no component here")]⟩ :=
  ⟨c7_component_extraction.2.1 ⟨[("eventDescription", .str "Name=A Id=b")]⟩
      "Name=A Id=b" ['A'] ['b'] (by decide) (by decide),
   c7_component_extraction.2.2 ⟨[("eventDescription", .str "no component here")]⟩
      "no component here" (by decide) (by decide)⟩

theorem add_component_info_record_total (r : Record)
    (h : ∃ s, r.getD "eventDescription" (.str "") = .str s) :
    ∃ r', add_component_info_record r = .ok r' := by
  obtain ⟨s, hs⟩ := h
  simp only [add_component_info_record, hs]
  cases regexSearchComp s.data with
  | some m =>
    obtain ⟨nm, idp, ow⟩ := m
    exact ⟨_, rfl⟩
  | none => exact ⟨_, rfl⟩

theorem add_adobe_event_record_total (r : Record) (s : String)
    (h : r.get? "eventDescription" = some (.str s)) :
    ∃ r', add_adobe_event_record r = .ok r' := by
  have h₁ : (r.set "event" (.str "")).get? "eventDescription" = some (.str s) := by
    rw [Record.get?_set_ne _ _ _ _ (by decide)]
    exact h
  simp only [add_adobe_event_record, h₁]
  cases event_name_dict.find?
      (fun p => containsSub (p.2.data.map Char.toLower) (s.data.map Char.toLower)) with
  | some p => exact ⟨_, rfl⟩
  | none => exact ⟨_, rfl⟩

/-- Claim C9 as amended: `update_event_types` completes over every record
list (missing or null event types get the sentinel label);
`add_component_info` completes whenever each record's description is a
string or absent (absent defaults to "", leaving the record unmodified);
`add_adobe_events`, however, requires every record to carry a string
`eventDescription` and completes under that hypothesis. -/
theorem c9_tolerance_amended (logs : List Record) :
    (update_event_types logs).length = logs.length ∧
    ((∀ r ∈ logs, ∃ s, r.getD "eventDescription" (.str "") = .str s) →
      ∃ out, add_component_info logs = .ok out ∧ out.length = logs.length) ∧
    ((∀ r ∈ logs, ∃ s, r.get? "eventDescription" = some (.str s)) →
      ∃ out, add_adobe_events logs = .ok out ∧ out.length = logs.length) := by
  refine ⟨List.length_map _ _, ?_, ?_⟩
  · intro h
    exact mapExcept_total _ logs (fun r hr => add_component_info_record_total r (h r hr))
  · intro h
    exact mapExcept_total _ logs (fun r hr =>
      (h r hr).elim (fun s hs => add_adobe_event_record_total r s hs))

/-- Claim C9 counterexample: the record `{}` lacks every optional field, yet
`add_adobe_events` aborts the whole batch with a KeyError on it instead of
completing over the full sequence — while the other two transformations do
tolerate the same record. -/
theorem c9_missing_field_abort :
    add_adobe_events [Record.mk []] = .error .keyError ∧
    update_event_types [Record.mk []] =
      [⟨[("eventType", JVal.str "Unknown Event Type")]⟩] ∧
    add_component_info [Record.mk []] = .ok [Record.mk []] := by
  decide

theorem c9_tolerance_amended_witness :
    ((update_event_types [Record.mk []]).length = ([Record.mk []] : List Record).length ∧
      (∃ out, add_component_info [Record.mk []] = .ok out ∧
        out.length = ([Record.mk []] : List Record).length)) ∧
    (∃ out, add_adobe_events [(⟨[("eventDescription", JVal.str "x")]⟩ : Record)] = .ok out ∧
      out.length = ([(⟨[("eventDescription", JVal.str "x")]⟩ : Record)] : List Record).length) :=
  ⟨⟨(c9_tolerance_amended [Record.mk []]).1,
    (c9_tolerance_amended [Record.mk []]).2.1 (fun r hr => by
      rw [List.mem_singleton] at hr
      subst hr
      exact ⟨"", by decide⟩)⟩,
   (c9_tolerance_amended [(⟨[("eventDescription", JVal.str "x")]⟩ : Record)]).2.2
     (fun r hr => by
      rw [List.mem_singleton] at hr
      subst hr
      exact ⟨"x", by decide⟩)⟩

theorem update_event_type_record_frame (r : Record) (k : String)
    (h : k ≠ "eventType") :
    (update_event_type_record r).get? k = r.get? k := by
  unfold update_event_type_record
  cases hev : r.get? "eventType" with
  | none => exact Record.get?_set_ne _ _ _ _ h
  | some v =>
    cases v with
    | null => exact Record.get?_set_ne _ _ _ _ h
    | str s =>
      dsimp only
      cases s.toNat? with
      | none => rfl
      | some n =>
        dsimp only
        cases lookupEventType n with
        | some label => exact Record.get?_set_ne _ _ _ _ h
        | none => exact Record.get?_set_ne _ _ _ _ h
    | num n =>
      dsimp only
      cases lookupEventType n with
      | some label => exact Record.get?_set_ne _ _ _ _ h
      | none => exact Record.get?_set_ne _ _ _ _ h

theorem add_component_info_record_frame (item r' : Record)
    (h : add_component_info_record item = .ok r') (k : String)
    (h1 : k ≠ "componentName") (h2 : k ≠ "componentId") (h3 : k ≠ "componentOwner") :
    r'.get? k = item.get? k := by
  unfold add_component_info_record at h
  cases hd : item.getD "eventDescription" (.str "") with
  | str desc =>
    rw [hd] at h
    dsimp only at h
    cases hs : regexSearchComp desc.data with
    | some m =>
      obtain ⟨nm, idp, ow⟩ := m
      rw [hs] at h
      dsimp only at h
      cases h
      rw [Record.get?_set_ne _ _ _ _ h3, Record.get?_set_ne _ _ _ _ h2,
        Record.get?_set_ne _ _ _ _ h1]
    | none =>
      rw [hs] at h
      cases h
      rfl
  | num n =>
    rw [hd] at h
    cases h
  | null =>
    rw [hd] at h
    cases h

theorem add_adobe_event_record_frame (entry r' : Record)
    (h : add_adobe_event_record entry = .ok r') (k : String) (h1 : k ≠ "event") :
    r'.get? k = entry.get? k := by
  simp only [add_adobe_event_record] at h
  cases hd : (entry.set "event" (.str "")).get? "eventDescription" with
  | none =>
    rw [hd] at h
    cases h
  | some v =>
    rw [hd] at h
    cases v with
    | str s =>
      dsimp only at h
      cases hf : event_name_dict.find?
          (fun p => containsSub (p.2.data.map Char.toLower) (s.data.map Char.toLower)) with
      | some p =>
        rw [hf] at h
        cases h
        rw [Record.get?_set_ne _ _ _ _ h1, Record.get?_set_ne _ _ _ _ h1]
      | none =>
        rw [hf] at h
        cases h
        exact Record.get?_set_ne _ _ _ _ h1
    | num n => cases h
    | null => cases h

/-- Claim C10: each enrichment pass that succeeds yields exactly one output
record per input record, in order, and changes only its own derived fields:
`update_event_types` only `eventType`, `add_component_info` only the three
component fields, `add_adobe_events` only `event`. -/
theorem c10_enrichment_frame (logs : List Record) :
    ((update_event_types logs).length = logs.length ∧
      List.Forall₂ (fun r r' => ∀ k, k ≠ "eventType" → r'.get? k = r.get? k)
        logs (update_event_types logs)) ∧
    (∀ out, add_component_info logs = .ok out → out.length = logs.length ∧
      List.Forall₂ (fun r r' => ∀ k, k ≠ "componentName" → k ≠ "componentId" →
        k ≠ "componentOwner" → r'.get? k = r.get? k) logs out) ∧
    (∀ out, add_adobe_events logs = .ok out → out.length = logs.length ∧
      List.Forall₂ (fun r r' => ∀ k, k ≠ "event" → r'.get? k = r.get? k) logs out) := by
  refine ⟨⟨List.length_map _ _, ?_⟩, ?_, ?_⟩
  · rw [update_event_types]
    exact List.forall₂_map_right_iff.mpr (List.forall₂_same.mpr
      (fun r _ k hk => update_event_type_record_frame r k hk))
  · intro out hout
    have hf := mapExcept_ok_forall₂ _ logs out hout
    refine ⟨(List.Forall₂.length_eq hf).symm, ?_⟩
    exact hf.imp (fun a b hab k h1 h2 h3 =>
      add_component_info_record_frame a b hab k h1 h2 h3)
  · intro out hout
    have hf := mapExcept_ok_forall₂ _ logs out hout
    refine ⟨(List.Forall₂.length_eq hf).symm, ?_⟩
    exact hf.imp (fun a b hab k h1 => add_adobe_event_record_frame a b hab k h1)

theorem c10_enrichment_frame_witness :
    ((update_event_types [demoDescRec]).length = [demoDescRec].length ∧
      List.Forall₂ (fun r r' => ∀ k, k ≠ "eventType" → r'.get? k = r.get? k)
        [demoDescRec] (update_event_types [demoDescRec])) ∧
    ([demoDescRec].length = [demoDescRec].length ∧
      List.Forall₂ (fun r r' => ∀ k, k ≠ "componentName" → k ≠ "componentId" →
        k ≠ "componentOwner" → r'.get? k = r.get? k) [demoDescRec] [demoDescRec]) ∧
    ([demoDescRecTagged].length = [demoDescRec].length ∧
      List.Forall₂ (fun r r' => ∀ k, k ≠ "event" → r'.get? k = r.get? k)
        [demoDescRec] [demoDescRecTagged]) :=
  ⟨(c10_enrichment_frame [demoDescRec]).1,
   (c10_enrichment_frame [demoDescRec]).2.1 [demoDescRec] (by decide),
   (c10_enrichment_frame [demoDescRec]).2.2 [demoDescRecTagged] (by decide)⟩
